import Mathlib

/-!
Verification of the esp32-can-multibackend transport layer.

This file gives a shallow embedding of the addressing model, the frame
conversions of the MCP2515-multi and TWAI backend adapters, the MCP2515
single adapter's init/send/receive/deinit control flow, the TWAI adapter's
send/receive/recovery control flow, and the producer-side bounded queue of
the interrupt receive example.  Machine integers are modelled as `Nat` with
explicit `% 2 ^ w` where a store to a fixed-width field can truncate.
External driver calls (ESP-IDF, the MCP2515 register driver, FreeRTOS) are
modelled at the interface boundary: each call site draws its result from an
oracle parameter, and hardware side effects are recorded as explicit action
traces or state updates.
-/

/-! ## Addressing model (mcp2515_multi_if.h) -/

/-- Packs `bus_id` and `dev_id` into a compact composite target.
Mirrors `can_target_from_ids`: `(can_target_t)(((uint16_t)bus_id << 8) | (uint16_t)dev_id)`.
The final `% 65536` models the store into the 16-bit `can_target_t`. -/
def can_target_from_ids (bus_id dev_id : Nat) : Nat :=
  ((bus_id <<< 8) ||| dev_id) % 65536

/-- Extracts the bus id (upper 8 bits) from a composite target.
Mirrors `can_target_bus_id`: `(can_bus_id_t)(t >> 8)`; `% 256` models the
cast to the 8-bit `can_bus_id_t`. -/
def can_target_bus_id (t : Nat) : Nat :=
  (t >>> 8) % 256

/-- Extracts the device id (lower 8 bits) from a composite target.
Mirrors `can_target_dev_id`: `(can_dev_id_t)(t & 0xFF)`. -/
def can_target_dev_id (t : Nat) : Nat :=
  (t &&& 0xFF) % 256

theorem can_target_from_ids_eq (b d : Nat) (hb : b < 256) (hd : d < 256) :
    can_target_from_ids b d = 256 * b + d := by
  unfold can_target_from_ids
  rw [Nat.shiftLeft_eq]
  have h8 : b * 2 ^ 8 = 2 ^ 8 * b := Nat.mul_comm _ _
  rw [h8, ← Nat.mul_add_lt_is_or (by simpa using hd) b]
  have : 2 ^ 8 * b + d < 65536 := by omega
  omega

/-- C1: for every bus_id and dev_id in 0..255, unpacking the packed composite
target returns the original pair, and packing the unpacked pair returns the
original 16-bit target, i.e. packing/unpacking is a lossless bijection over
the full 0..=255 × 0..=255 domain. -/
theorem c1_composite_target_bijection (b d t : Nat)
    (hb : b < 256) (hd : d < 256) (ht : t < 65536) :
    can_target_bus_id (can_target_from_ids b d) = b ∧
    can_target_dev_id (can_target_from_ids b d) = d ∧
    can_target_from_ids (can_target_bus_id t) (can_target_dev_id t) = t := by
  rw [can_target_from_ids_eq b d hb hd]
  unfold can_target_bus_id can_target_dev_id
  have e255 : (0xFF : Nat) = 2 ^ 8 - 1 := by norm_num
  rw [Nat.shiftRight_eq_div_pow, e255, Nat.and_pow_two_sub_one_eq_mod]
  refine ⟨by omega, by omega, ?_⟩
  rw [Nat.shiftRight_eq_div_pow, Nat.and_pow_two_sub_one_eq_mod]
  have hbt : t / 2 ^ 8 % 256 < 256 := Nat.mod_lt _ (by omega)
  have hdt : t % 2 ^ 8 % 256 < 256 := Nat.mod_lt _ (by omega)
  rw [can_target_from_ids_eq _ _ hbt hdt]
  omega

/-- Witness for C1 at bus_id 1, dev_id 11, target 0x010B (the spec's §8
addressing scenario). -/
theorem c1_composite_target_bijection_witness :
    can_target_bus_id (can_target_from_ids 1 11) = 1 ∧
    can_target_dev_id (can_target_from_ids 1 11) = 11 ∧
    can_target_from_ids (can_target_bus_id 0x010B) (can_target_dev_id 0x010B) = 0x010B := by
  have h := c1_composite_target_bijection 1 11 0x010B (by decide) (by decide) (by decide)
  exact ⟨h.1, h.2.1, h.2.2⟩

/-! ## Frame model (can_message.h, mcp2515_multi_internal.h, driver/twai.h) -/

/-- The protocol-agnostic frame of `can_message.h`: id, extended/rtr flags,
dlc and an 8-byte data array (bytes modelled as `Nat`, indexed by `Fin 8`). -/
structure can_message_t where
  id : Nat
  extended_id : Bool
  rtr : Bool
  dlc : Nat
  data : Fin 8 → Nat

/-- The ESP-IDF TWAI driver message: a flags word (bit 0 = `TWAI_MSG_FLAG_EXTD`),
a 32-bit identifier, a data length code and an 8-byte data array. -/
structure twai_message_t where
  flags : Nat
  identifier : Nat
  data_length_code : Nat
  data : Fin 8 → Nat

/-- The minimal CAN frame of the MCP2515 multi library
(`mcp2515_multi_internal.h`): `can_id` carries the EFF flag in bit 31. -/
structure CAN_FRAME where
  can_id : Nat
  can_dlc : Nat
  data : Fin 8 → Nat

/-- `TWAI_MSG_FLAG_EXTD` from the ESP-IDF TWAI driver header (bit 0). -/
def TWAI_MSG_FLAG_EXTD : Nat := 1

/-- `to_frame` of `mcp2515_multi_adapter.c`: converts a `twai_message_t` to a
`CAN_FRAME`.  `out0` is the previous content of the output record (the C code
writes only `can_id`, `can_dlc` and the first dlc data bytes); the `% 2 ^ 32`
models the store into the 32-bit `can_id`. -/
def to_frame (m : twai_message_t) (out0 : CAN_FRAME) : CAN_FRAME :=
  { can_id := if m.flags &&& TWAI_MSG_FLAG_EXTD ≠ 0
              then (m.identifier ||| (1 <<< 31)) % 2 ^ 32
              else m.identifier &&& 0x7FF
    can_dlc := m.data_length_code
    data := fun i => if i.val < m.data_length_code then m.data i else out0.data i }

/-- `from_frame` of `mcp2515_multi_adapter.c`: converts a `CAN_FRAME` to a
`twai_message_t`.  `out0` is the previous content of the output record. -/
def from_frame (f : CAN_FRAME) (out0 : twai_message_t) : twai_message_t :=
  { flags := if f.can_id &&& (1 <<< 31) ≠ 0 then TWAI_MSG_FLAG_EXTD else 0
    identifier := if f.can_id &&& (1 <<< 31) ≠ 0 then f.can_id &&& 0x1FFFFFFF
                  else f.can_id &&& 0x7FF
    data_length_code := f.can_dlc
    data := fun i => if i.val < f.can_dlc then f.data i else out0.data i }

/-- Wire-message construction inside `can_twai_send` (twai_adapter.c lines
96-105): the message is zero-initialised except identifier and dlc, then the
first dlc data bytes are copied; `flags` is the literal `0`. -/
def can_twai_send_build (m : can_message_t) : twai_message_t :=
  { flags := 0
    identifier := m.id
    data_length_code := m.dlc
    data := fun i => if i.val < m.dlc then m.data i else 0 }

/-- Store of a received TWAI message into the caller's buffer inside
`can_twai_receive` (twai_adapter.c lines 151-162): `id` and `dlc` are written
unconditionally; the data bytes are copied only when the dlc is valid;
`extended_id` and `rtr` of the caller's buffer are never assigned. -/
def can_twai_receive_store (msg : twai_message_t) (buf : can_message_t) : can_message_t :=
  { id := msg.identifier
    extended_id := buf.extended_id
    rtr := buf.rtr
    dlc := msg.data_length_code
    data := fun i => if msg.data_length_code ≤ 8 ∧ i.val < msg.data_length_code
                     then msg.data i else buf.data i }

/-! ### Bit-level helper lemmas for the frame conversions -/

theorem lor_one_shiftLeft_31 {v : Nat} (h : v < 2 ^ 31) :
    v ||| 1 <<< 31 = 2 ^ 31 + v := by
  rw [Nat.one_shiftLeft, Nat.lor_comm]
  have hmul := (Nat.mul_add_lt_is_or h 1).symm
  simpa using hmul

theorem add_two_pow_31_and_high_bit {v : Nat} (h : v < 2 ^ 31) :
    (2 ^ 31 + v) &&& 1 <<< 31 ≠ 0 := by
  rw [Nat.one_shiftLeft, Nat.and_two_pow]
  have ht : (2 ^ 31 + v).testBit 31 = true := by
    have hbit := Nat.testBit_mul_pow_two_add 1 h 31
    simpa using hbit
  rw [ht]
  simp

theorem lt_two_pow_31_and_high_bit {v : Nat} (h : v < 2 ^ 31) :
    v &&& 1 <<< 31 = 0 := by
  rw [Nat.one_shiftLeft, Nat.and_two_pow, Nat.testBit_lt_two_pow h]
  simp

theorem and_mask_7FF (x : Nat) : x &&& 0x7FF = x % 2 ^ 11 := by
  have h : (0x7FF : Nat) = 2 ^ 11 - 1 := by norm_num
  rw [h, Nat.and_pow_two_sub_one_eq_mod]

theorem and_mask_1FFFFFFF (x : Nat) : x &&& 0x1FFFFFFF = x % 2 ^ 29 := by
  have h : (0x1FFFFFFF : Nat) = 2 ^ 29 - 1 := by norm_num
  rw [h, Nat.and_pow_two_sub_one_eq_mod]

/-- C2 counterexample: the claim fails on the code for the TWAI adapter's
conversion path.  For the extended frame with id 0x100, dlc 1, converting
through `can_twai_send`'s wire build and `can_twai_receive`'s store (into a
buffer whose extended flag is clear) yields a message whose extended flag
differs from the original: the send path hard-codes `flags = 0` and the
receive path never assigns `extended_id`. -/
theorem c2_twai_extended_flag_counterexample :
    (can_twai_receive_store
        (can_twai_send_build ⟨0x100, true, false, 1, fun _ => 0xAB⟩)
        ⟨0, false, false, 0, fun _ => 0⟩).extended_id
      ≠ (⟨0x100, true, false, 1, fun _ => 0xAB⟩ : can_message_t).extended_id := by
  simp [can_twai_receive_store, can_twai_send_build]

/-- C2 (amended): the round trip preserves id, extended flag, dlc and the
first dlc data bytes exactly for the MCP2515 multi adapter's conversion pair
(`to_frame` composed with `from_frame`); for the TWAI adapter's send/receive
conversion path only the id, the dlc and the first dlc data bytes are
preserved — the extended flag is not propagated in either direction. -/
theorem c2_frame_roundtrip_amended
    (m : twai_message_t) (f0 : CAN_FRAME) (t0 : twai_message_t)
    (c : can_message_t) (buf : can_message_t)
    (hdlc : m.data_length_code ≤ 8)
    (hext : m.flags &&& TWAI_MSG_FLAG_EXTD ≠ 0 → m.identifier < 2 ^ 29)
    (hstd : m.flags &&& TWAI_MSG_FLAG_EXTD = 0 → m.identifier < 2 ^ 11)
    (hcdlc : c.dlc ≤ 8) :
    (((from_frame (to_frame m f0) t0).flags &&& TWAI_MSG_FLAG_EXTD = 0 ↔
        m.flags &&& TWAI_MSG_FLAG_EXTD = 0) ∧
     (from_frame (to_frame m f0) t0).identifier = m.identifier ∧
     (from_frame (to_frame m f0) t0).data_length_code = m.data_length_code ∧
     ∀ i : Fin 8, i.val < m.data_length_code →
       (from_frame (to_frame m f0) t0).data i = m.data i) ∧
    ((can_twai_receive_store (can_twai_send_build c) buf).id = c.id ∧
     (can_twai_receive_store (can_twai_send_build c) buf).dlc = c.dlc ∧
     ∀ i : Fin 8, i.val < c.dlc →
       (can_twai_receive_store (can_twai_send_build c) buf).data i = c.data i) := by
  constructor
  · by_cases hx : m.flags &&& TWAI_MSG_FLAG_EXTD = 0
    · have hid := hstd hx
      have hid31 : m.identifier < 2 ^ 31 := by
        have : (2 ^ 11 : Nat) < 2 ^ 31 := by norm_num
        omega
      have hcan : (to_frame m f0).can_id = m.identifier := by
        simp only [to_frame, hx, ne_eq, not_true_eq_false, if_false]
        rw [and_mask_7FF, Nat.mod_eq_of_lt hid]
      refine ⟨?_, ?_, ?_, ?_⟩
      · simp only [from_frame, hcan, lt_two_pow_31_and_high_bit hid31, ne_eq,
          not_true_eq_false, if_false, hx]
        simp
      · simp only [from_frame, hcan, lt_two_pow_31_and_high_bit hid31, ne_eq,
          not_true_eq_false, if_false]
        rw [and_mask_7FF, Nat.mod_eq_of_lt hid]
      · simp [from_frame, to_frame]
      · intro i hi
        simp [from_frame, to_frame, hi]
    · have hid := hext hx
      have hid31 : m.identifier < 2 ^ 31 := by
        have : (2 ^ 29 : Nat) < 2 ^ 31 := by norm_num
        omega
      have hcan : (to_frame m f0).can_id = 2 ^ 31 + m.identifier := by
        simp only [to_frame, hx, ne_eq, not_false_eq_true, if_true, if_pos hx]
        rw [lor_one_shiftLeft_31 hid31, Nat.mod_eq_of_lt (by omega)]
      have hhigh := add_two_pow_31_and_high_bit hid31
      refine ⟨?_, ?_, ?_, ?_⟩
      · have hx2 : m.flags % 2 ≠ 0 := by
          simpa [TWAI_MSG_FLAG_EXTD, Nat.and_one_is_mod] using hx
        simp only [from_frame, hcan, if_pos hhigh, TWAI_MSG_FLAG_EXTD]
        simp [Nat.and_one_is_mod]
        omega
      · simp only [from_frame, hcan, if_pos hhigh]
        rw [and_mask_1FFFFFFF]
        have h429 : (2 ^ 31 : Nat) = 4 * 2 ^ 29 := by norm_num
        omega
      · simp [from_frame, to_frame]
      · intro i hi
        simp [from_frame, to_frame, hi]
  · refine ⟨rfl, rfl, ?_⟩
    intro i hi
    simp [can_twai_receive_store, can_twai_send_build, hi, hcdlc]

/-- Witness for C2 (amended) at an extended MCP frame (flags 1, id 0x12345,
dlc 2) and a standard TWAI message (id 0x123, dlc 2). -/
theorem c2_frame_roundtrip_amended_witness :
    (from_frame (to_frame ⟨1, 0x12345, 2, fun _ => 7⟩ ⟨0, 0, fun _ => 0⟩)
        ⟨0, 0, 0, fun _ => 0⟩).identifier = 0x12345 ∧
    (from_frame (to_frame ⟨1, 0x12345, 2, fun _ => 7⟩ ⟨0, 0, fun _ => 0⟩)
        ⟨0, 0, 0, fun _ => 0⟩).data_length_code = 2 ∧
    (can_twai_receive_store (can_twai_send_build ⟨0x123, false, false, 2, fun _ => 9⟩)
        ⟨0, false, false, 0, fun _ => 0⟩).id = 0x123 := by
  have h := c2_frame_roundtrip_amended ⟨1, 0x12345, 2, fun _ => 7⟩ ⟨0, 0, fun _ => 0⟩
    ⟨0, 0, 0, fun _ => 0⟩ ⟨0x123, false, false, 2, fun _ => 9⟩
    ⟨0, false, false, 0, fun _ => 0⟩ (by decide) (fun _ => by decide)
    (fun hz => absurd hz (by decide)) (by decide)
  exact ⟨h.1.2.1, h.1.2.2.1, h.2.1⟩

/-! ## MCP2515 single adapter: init control flow (mcp2515_single_adapter.c)

The adapter drives the controller through external driver calls.  Each call
site draws its result from an oracle field of `McpInitHw` (Bool = the call
reported `ERROR_OK` / `ESP_OK`); the CANSTAT register reads of the two mode
poll loops are oracle functions from the attempt number to the register
value. -/

/-- `CANCTRL_REQOP_NORMAL` from the MCP2515 driver header. -/
def CANCTRL_REQOP_NORMAL : Nat := 0x00

/-- `CANCTRL_REQOP_LOOPBACK` from the MCP2515 driver header. -/
def CANCTRL_REQOP_LOOPBACK : Nat := 0x40

/-- `CANCTRL_REQOP_CONFIG` from the MCP2515 driver header. -/
def CANCTRL_REQOP_CONFIG : Nat := 0x80

/-- The mode bits of a CANSTAT/CANCTRL value: `(x >> 5) & 0x07`, as computed
in the poll loops of `mcp2515_single_init`. -/
def modeBits (x : Nat) : Nat := (x >>> 5) &&& 7

/-- The requested target mode of `mcp2515_single_init` step 6:
loopback when `use_loopback` is set, else normal. -/
def targetModeOf (use_loopback : Bool) : Nat :=
  if use_loopback then CANCTRL_REQOP_LOOPBACK else CANCTRL_REQOP_NORMAL

/-- One mode-verification poll loop of `mcp2515_single_init`
(`for (int attempt = 0; attempt < 10; attempt++)`): compares the mode bits of
each CANSTAT read against the requested mode bits, exiting early on a match.
`fuel` is the number of attempts left, `attempt` the current attempt index. -/
def modePollLoopAux (reads : Nat → Nat) (req : Nat) : Nat → Nat → Bool
  | 0, _ => false
  | fuel + 1, attempt =>
    if modeBits (reads attempt) = req then true
    else modePollLoopAux reads req fuel (attempt + 1)

/-- The full 10-attempt poll against the mode bits of `target`. -/
def modePollLoop (reads : Nat → Nat) (target : Nat) : Bool :=
  modePollLoopAux reads (modeBits target) 10 0

/-- A `for (i = 0; i < n; i++)` loop over driver calls that returns false as
soon as one call fails (the filter and mask programming loops of init
step 7). -/
def forLoopOk (ok : Nat → Bool) : Nat → Nat → Bool
  | 0, _ => true
  | n + 1, i => if ok i then forLoopOk ok n (i + 1) else false

/-- Oracle for all external calls made by `mcp2515_single_init`. -/
structure McpInitHw where
  mcpInit_ok : Bool
  spiBus_ok : Bool
  spiDev_ok : Bool
  reset_ok : Bool
  bitrate_ok : Bool
  poll1 : Nat → Nat
  stab : Nat
  filter_ok : Nat → Bool
  mask_ok : Nat → Bool
  poll2 : Nat → Nat
  gpioCfg_ok : Bool
  isrSvc_ok : Bool
  isrAdd_ok : Bool

/-- Control flow of `mcp2515_single_init`: bundle validation, driver init,
SPI bus/device binding, reset, bitrate, the requested mode change verified by
a 10-attempt poll plus a stability re-read, interrupt-enable and
filter/mask programming, the re-applied mode change verified by a second
10-attempt poll, and GPIO/ISR setup.  `cfgValid` models
`cfg != NULL && cfg->device_count >= 1 && cfg->devices != NULL`. -/
def mcp2515_single_init (cfgValid use_loopback : Bool) (hw : McpInitHw) : Bool :=
  if !cfgValid then false
  else if !hw.mcpInit_ok then false
  else if !hw.spiBus_ok then false
  else if !hw.spiDev_ok then false
  else if !hw.reset_ok then false
  else if !hw.bitrate_ok then false
  else if !(modePollLoop hw.poll1 (targetModeOf use_loopback)) then false
  else if modeBits hw.stab ≠ modeBits (targetModeOf use_loopback) then false
  else if !(forLoopOk hw.filter_ok 6 0) then false
  else if !(forLoopOk hw.mask_ok 2 0) then false
  else if !(modePollLoop hw.poll2 (targetModeOf use_loopback)) then false
  else if !hw.gpioCfg_ok then false
  else if !hw.isrSvc_ok then false
  else if !hw.isrAdd_ok then false
  else true

theorem modePollLoopAux_eq_true_iff (reads : Nat → Nat) (req : Nat) :
    ∀ fuel attempt, modePollLoopAux reads req fuel attempt = true ↔
      ∃ i, i < fuel ∧ modeBits (reads (attempt + i)) = req := by
  intro fuel
  induction fuel with
  | zero => intro attempt; simp [modePollLoopAux]
  | succ n ih =>
    intro attempt
    rw [modePollLoopAux]
    by_cases h : modeBits (reads attempt) = req
    · simp only [h, if_pos rfl]
      constructor
      · intro _; exact ⟨0, by omega, by simpa using h⟩
      · intro _; rfl
    · rw [if_neg h, ih (attempt + 1)]
      constructor
      · rintro ⟨i, hi, hm⟩
        refine ⟨i + 1, by omega, ?_⟩
        have e : attempt + (i + 1) = attempt + 1 + i := by omega
        rw [e]; exact hm
      · rintro ⟨i, hi, hm⟩
        cases i with
        | zero => exact absurd (by simpa using hm) h
        | succ j =>
          refine ⟨j, by omega, ?_⟩
          have e : attempt + 1 + j = attempt + (j + 1) := by omega
          rw [e]; exact hm

theorem modePollLoop_eq_true_iff (reads : Nat → Nat) (target : Nat) :
    modePollLoop reads target = true ↔
      ∃ i, i < 10 ∧ modeBits (reads i) = modeBits target := by
  rw [modePollLoop, modePollLoopAux_eq_true_iff]
  simp

/-- The spec's simulated adapter: the CANSTAT register shows configuration
mode for the first `k` polls and the requested mode from poll `k` onward. -/
def simPollReads (k target : Nat) : Nat → Nat :=
  fun i => if i < k then CANCTRL_REQOP_CONFIG else target

/-- Hardware oracle in which every driver call succeeds, the first poll loop
sees the requested mode only from attempt `k` onward, and the re-applied mode
is visible immediately in the second poll loop. -/
def simInitHw (k : Nat) (target : Nat) : McpInitHw :=
  { mcpInit_ok := true, spiBus_ok := true, spiDev_ok := true, reset_ok := true
    bitrate_ok := true, poll1 := simPollReads k target, stab := target
    filter_ok := fun _ => true, mask_ok := fun _ => true
    poll2 := fun _ => target, gpioCfg_ok := true, isrSvc_ok := true
    isrAdd_ok := true }

theorem simPoll_eq_true_iff (k : Nat) (lb : Bool) :
    modePollLoop (simPollReads k (targetModeOf lb)) (targetModeOf lb) = true ↔ k < 10 := by
  rw [modePollLoop_eq_true_iff]
  constructor
  · rintro ⟨i, hi, hm⟩
    by_contra hk
    have hik : i < k := by omega
    rw [simPollReads, if_pos hik] at hm
    cases lb <;> revert hm <;> decide
  · intro hk
    refine ⟨k, hk, ?_⟩
    rw [simPollReads, if_neg (by omega)]

/-- C3: with a simulated adapter whose mode register reflects the requested
mode only after `k` polls (and every other driver call succeeding), the open
operation `mcp2515_single_init` succeeds exactly when `k < 10`: a match at
some attempt `k < 10` of the fixed 10-attempt poll yields success, and
exhausting the 10 attempts yields failure. -/
theorem c3_mode_switch_poll_bound (k : Nat) (lb : Bool) :
    mcp2515_single_init true lb (simInitHw k (targetModeOf lb)) = true ↔ k < 10 := by
  have h2 : modePollLoop (fun _ => targetModeOf lb) (targetModeOf lb) = true := by
    rw [modePollLoop_eq_true_iff]
    exact ⟨0, by omega, rfl⟩
  have hf6 : forLoopOk (fun _ => true) 6 0 = true := rfl
  have hf2 : forLoopOk (fun _ => true) 2 0 = true := rfl
  by_cases hk : k < 10
  · have hp1 : modePollLoop (simPollReads k (targetModeOf lb)) (targetModeOf lb) = true :=
      (simPoll_eq_true_iff k lb).mpr hk
    simp [mcp2515_single_init, simInitHw, hp1, h2, hf6, hf2, hk]
  · have hp1 : modePollLoop (simPollReads k (targetModeOf lb)) (targetModeOf lb) = false := by
      have hne : ¬ modePollLoop (simPollReads k (targetModeOf lb)) (targetModeOf lb) = true :=
        fun h => hk ((simPoll_eq_true_iff k lb).mp h)
      exact Bool.eq_false_iff.mpr hne
    simp [mcp2515_single_init, simInitHw, hp1, hk]

/-- Hardware oracle in which every step up to and including the filter/mask
programming succeeds (the first mode poll matches immediately), while the
CANSTAT reads of the second, post-filter poll loop are the arbitrary
sequence `p2` — in particular a sequence that starts in configuration mode,
as when the filter/mask programming forced the controller back there. -/
def simInitHwPostFilter (p2 : Nat → Nat) (target : Nat) : McpInitHw :=
  { mcpInit_ok := true, spiBus_ok := true, spiDev_ok := true, reset_ok := true
    bitrate_ok := true, poll1 := fun _ => target, stab := target
    filter_ok := fun _ => true, mask_ok := fun _ => true
    poll2 := p2, gpioCfg_ok := true, isrSvc_ok := true, isrAdd_ok := true }

/-- C4: when the acceptance filter/mask programming (performed after the
operating mode was set) has forced the controller back into a configuration
state, `mcp2515_single_init` re-requests the previously requested operating
mode and re-verifies it with the same bounded 10-attempt poll: with every
other step succeeding, open reports success exactly when some attempt
`i < 10` of the second poll shows the requested mode bits, and fails when
the re-verification exhausts the bound. -/
theorem c4_refilter_mode_reverified (lb : Bool) (p2 : Nat → Nat) :
    mcp2515_single_init true lb (simInitHwPostFilter p2 (targetModeOf lb)) = true ↔
      ∃ i, i < 10 ∧ modeBits (p2 i) = modeBits (targetModeOf lb) := by
  have h1 : modePollLoop (fun _ => targetModeOf lb) (targetModeOf lb) = true := by
    rw [modePollLoop_eq_true_iff]
    exact ⟨0, by omega, rfl⟩
  have hf6 : forLoopOk (fun _ => true) 6 0 = true := rfl
  have hf2 : forLoopOk (fun _ => true) 2 0 = true := rfl
  by_cases hp : modePollLoop p2 (targetModeOf lb) = true
  · have hex := (modePollLoop_eq_true_iff p2 (targetModeOf lb)).mp hp
    simp [mcp2515_single_init, simInitHwPostFilter, h1, hf6, hf2, hp, hex]
  · have hpf : modePollLoop p2 (targetModeOf lb) = false := Bool.eq_false_iff.mpr hp
    have hnex : ¬ ∃ i, i < 10 ∧ modeBits (p2 i) = modeBits (targetModeOf lb) :=
      fun hex => hp ((modePollLoop_eq_true_iff p2 (targetModeOf lb)).mpr hex)
    simp [mcp2515_single_init, simInitHwPostFilter, h1, hf6, hf2, hpf, hnex]

/-! ## TWAI adapter: send/receive/recovery control flow (twai_adapter.c)

Effects on the ESP-IDF TWAI driver are recorded as an explicit action trace;
driver-call results are oracle parameters. -/

/-- Controller state reported by `twai_get_status_info`
(`twai_state_t` of the ESP-IDF driver). -/
inductive TwaiState where
  | stopped
  | running
  | busOff
  | recovering
deriving DecidableEq, Repr

/-- The configured timeouts of `twai_backend_config_t.timeouts`
(twai_config_types.h), in ticks. -/
structure twai_timeouts_config_t where
  receive_timeout : Nat
  transmit_timeout : Nat
  bus_off_timeout : Nat
  bus_not_running_timeout : Nat

/-- Driver calls issued by the TWAI adapter, in program order. -/
inductive TwaiAction where
  | getStatusInfo
  | initiateRecovery
  | taskDelay (ticks : Nat)
  | stop
  | start
  | transmit (timeout_ticks : Nat)
  | receive (timeout_ticks : Nat)
deriving DecidableEq, Repr

/-- `can_twai_reset_twai_if_needed`: reads the controller status; on bus-off
it issues one recovery request and waits the configured bus-off timeout; on
any other not-running state it stops the controller, waits the configured
(shorter) not-running timeout and restarts it; otherwise it does nothing
further.  `statusOk` is whether `twai_get_status_info` returned `ESP_OK`;
`st` is the reported state. -/
def can_twai_reset_twai_if_needed (cfg : twai_timeouts_config_t)
    (statusOk : Bool) (st : TwaiState) : List TwaiAction :=
  TwaiAction.getStatusInfo ::
    (if statusOk then
      if st = TwaiState.busOff then
        [TwaiAction.initiateRecovery, TwaiAction.taskDelay cfg.bus_off_timeout]
      else if st ≠ TwaiState.running then
        [TwaiAction.stop, TwaiAction.taskDelay cfg.bus_not_running_timeout,
         TwaiAction.start]
      else []
    else [])

/-- `can_twai_send`: rejects dlc > 8 before any driver access, otherwise
transmits with the configured timeout; on a transmit failure it runs the
recovery check as a side effect and reports failure.  `txOk` is whether
`twai_transmit` returned `ESP_OK`; `statusOk`/`st` feed the recovery check.
Returns the success flag and the driver-call trace. -/
def can_twai_send (cfg : twai_timeouts_config_t) (msg : can_message_t)
    (txOk statusOk : Bool) (st : TwaiState) : Bool × List TwaiAction :=
  if msg.dlc > 8 then (false, [])
  else if txOk then (true, [TwaiAction.transmit cfg.transmit_timeout])
  else (false, TwaiAction.transmit cfg.transmit_timeout ::
          can_twai_reset_twai_if_needed cfg statusOk st)

/-- Result of the `twai_receive` driver call: a message, a timeout
(`ESP_ERR_TIMEOUT`), or any other error. -/
inductive TwaiRxResult where
  | ok (m : twai_message_t)
  | timeout
  | err

/-- `can_twai_receive`: receives with the configured timeout.  On `ESP_OK`
with a valid dlc the message is stored into the caller's buffer; an invalid
dlc still overwrites id and dlc but fails.  A timeout fails silently; any
other error runs the recovery check as a side effect.  Returns the success
flag, the caller's buffer after the call, and the driver-call trace. -/
def can_twai_receive (cfg : twai_timeouts_config_t) (res : TwaiRxResult)
    (statusOk : Bool) (st : TwaiState) (buf : can_message_t) :
    Bool × can_message_t × List TwaiAction :=
  match res with
  | TwaiRxResult.ok m =>
      (m.data_length_code ≤ 8, can_twai_receive_store m buf,
       [TwaiAction.receive cfg.receive_timeout])
  | TwaiRxResult.timeout => (false, buf, [TwaiAction.receive cfg.receive_timeout])
  | TwaiRxResult.err =>
      (false, buf, TwaiAction.receive cfg.receive_timeout ::
         can_twai_reset_twai_if_needed cfg statusOk st)

/-- Whether a driver call belongs to the recovery check (the status read or
one of the recovery actions it can issue). -/
def isRecoveryAction : TwaiAction → Bool
  | TwaiAction.getStatusInfo => true
  | TwaiAction.initiateRecovery => true
  | TwaiAction.stop => true
  | TwaiAction.start => true
  | TwaiAction.taskDelay _ => true
  | _ => false

/-- C5: the bus-off/not-running recovery check runs only as a side effect of
a failed send or a failed non-timeout receive — a successful send, a send
rejected for length, a successful receive and a receive timeout issue no
recovery-check driver calls, while a failed transmit and a non-timeout
receive error each run the check exactly once, immediately after the failing
call; when the check runs with a readable status it issues one recovery
request followed by the configured bus-off wait on bus-off, and a
stop / configured not-running wait / restart sequence on any other
not-running state, and does nothing more than the status read otherwise. -/
theorem c5_recovery_only_after_failure (cfg : twai_timeouts_config_t) :
    (∀ (m : can_message_t) (sOk : Bool) (st : TwaiState),
       ((can_twai_send cfg m true sOk st).2.all fun a => !(isRecoveryAction a)) = true) ∧
    (∀ (m : can_message_t) (sOk : Bool) (st : TwaiState), m.dlc ≤ 8 →
       (can_twai_send cfg m false sOk st).2 =
         TwaiAction.transmit cfg.transmit_timeout ::
           can_twai_reset_twai_if_needed cfg sOk st) ∧
    (∀ (m : twai_message_t) (sOk : Bool) (st : TwaiState) (buf : can_message_t),
       ((can_twai_receive cfg (TwaiRxResult.ok m) sOk st buf).2.2.all
          fun a => !(isRecoveryAction a)) = true) ∧
    (∀ (sOk : Bool) (st : TwaiState) (buf : can_message_t),
       ((can_twai_receive cfg TwaiRxResult.timeout sOk st buf).2.2.all
          fun a => !(isRecoveryAction a)) = true) ∧
    (∀ (sOk : Bool) (st : TwaiState) (buf : can_message_t),
       (can_twai_receive cfg TwaiRxResult.err sOk st buf).2.2 =
         TwaiAction.receive cfg.receive_timeout ::
           can_twai_reset_twai_if_needed cfg sOk st) ∧
    (can_twai_reset_twai_if_needed cfg true TwaiState.busOff =
       [TwaiAction.getStatusInfo, TwaiAction.initiateRecovery,
        TwaiAction.taskDelay cfg.bus_off_timeout]) ∧
    (∀ st : TwaiState, st ≠ TwaiState.busOff → st ≠ TwaiState.running →
       can_twai_reset_twai_if_needed cfg true st =
         [TwaiAction.getStatusInfo, TwaiAction.stop,
          TwaiAction.taskDelay cfg.bus_not_running_timeout, TwaiAction.start]) ∧
    (can_twai_reset_twai_if_needed cfg true TwaiState.running =
       [TwaiAction.getStatusInfo]) := by
  refine ⟨?_, ?_, ?_, ?_, ?_, ?_, ?_, ?_⟩
  · intro m sOk st
    by_cases h : m.dlc > 8 <;> simp [can_twai_send, h, isRecoveryAction]
  · intro m sOk st hdlc
    simp [can_twai_send, Nat.not_lt.mpr hdlc]
  · intro m sOk st buf
    simp [can_twai_receive, isRecoveryAction]
  · intro sOk st buf
    simp [can_twai_receive, isRecoveryAction]
  · intro sOk st buf
    simp [can_twai_receive]
  · simp [can_twai_reset_twai_if_needed]
  · intro st h1 h2
    simp [can_twai_reset_twai_if_needed, h1, h2]
  · simp [can_twai_reset_twai_if_needed]

/-- Witness for C5: concrete timeouts (1,2,3,4 ticks), a failed send of a
dlc-2 frame with bus-off status, and a successful send of the same frame. -/
theorem c5_recovery_only_after_failure_witness :
    (can_twai_send ⟨1, 2, 3, 4⟩ ⟨0x123, false, false, 2, fun _ => 0⟩ false true
        TwaiState.busOff).2 =
      [TwaiAction.transmit 2, TwaiAction.getStatusInfo, TwaiAction.initiateRecovery,
       TwaiAction.taskDelay 3] ∧
    ((can_twai_send ⟨1, 2, 3, 4⟩ ⟨0x123, false, false, 2, fun _ => 0⟩ true true
        TwaiState.busOff).2.all fun a => !(isRecoveryAction a)) = true := by
  have h := c5_recovery_only_after_failure ⟨1, 2, 3, 4⟩
  constructor
  · have hfail := h.2.1 ⟨0x123, false, false, 2, fun _ => 0⟩ true TwaiState.busOff
      (by decide)
    rw [hfail, h.2.2.2.2.2.1]
  · exact h.1 ⟨0x123, false, false, 2, fun _ => 0⟩ true TwaiState.busOff

/-! ## MCP2515 single adapter: send (mcp2515_single_adapter.c) -/

/-- `CANINTF_MERRF` from the MCP2515 driver header (message-error interrupt
flag, bit 7). -/
def CANINTF_MERRF : Nat := 0x80

/-- Driver/register operations issued by the MCP2515 single adapter. -/
inductive McpAction where
  | readTXBCTRL (n : Nat)
  | driverSend
  | readEFLG
  | readCANINTF
  | clearMERR
  | getErrorFlagsCall
  | clearRXnOVR
  | clearERRIF
  | clearInterrupts
  | readMessage
deriving DecidableEq, Repr

/-- `mcp2515_single_send`: rejects dlc > 8 before any register access;
otherwise it reads the three TX buffer control registers, converts the frame
and hands it to `MCP2515_sendMessageAfterCtrlCheck`; on a driver failure it
reads the diagnostic registers and clears the message-error flag when that
flag is set.  `sendOk` is whether the driver call returned `ERROR_OK`,
`canintf` the CANINTF value read in the failure path.  Returns the success
flag and the register-access trace. -/
def mcp2515_single_send (msg : can_message_t) (sendOk : Bool) (canintf : Nat) :
    Bool × List McpAction :=
  if msg.dlc > 8 then (false, [])
  else if sendOk then
    (true, [McpAction.readTXBCTRL 0, McpAction.readTXBCTRL 1,
            McpAction.readTXBCTRL 2, McpAction.driverSend])
  else
    (false, [McpAction.readTXBCTRL 0, McpAction.readTXBCTRL 1,
             McpAction.readTXBCTRL 2, McpAction.driverSend, McpAction.readEFLG,
             McpAction.readCANINTF, McpAction.readTXBCTRL 0,
             McpAction.readTXBCTRL 1, McpAction.readTXBCTRL 2] ++
       (if canintf &&& CANINTF_MERRF ≠ 0 then [McpAction.clearMERR] else []))

/-! ## MCP2515 multi adapter: send (mcp2515_multi_adapter.c) -/

/-- `mcp2515_multi_send`: validates only that the adapter is initialised,
the index is in range and the message pointer is non-null — it performs no
dlc check — then converts the message with `to_frame` and hands it to
`MCP2515_SendMessageAfterCtrlCheck`.  `g_count` is `none` when `g_handles`
is NULL; `driverOk` is the driver call's result; `f0` is the initial content
of the local `CAN_FRAME`.  Returns the success flag and the frame handed to
the driver (`none` when no transmission was attempted). -/
def mcp2515_multi_send (g_count : Option Nat) (index : Nat) (msgGiven : Bool)
    (msg : twai_message_t) (f0 : CAN_FRAME) (driverOk : Bool) :
    Bool × Option CAN_FRAME :=
  match g_count with
  | none => (false, none)
  | some count =>
    if count ≤ index then (false, none)
    else if !msgGiven then (false, none)
    else (driverOk, some (to_frame msg f0))

/-- C6 counterexample: the claim fails on the code for the multi backend.
For an initialised multi adapter (one instance), a message with dlc 9 at
index 0 is forwarded to the driver (a transmission is attempted) and the
send reports success when the driver accepts it, instead of failing with
`TooLong` without attempting transmission. -/
theorem c6_multi_send_no_dlc_check_counterexample :
    (mcp2515_multi_send (some 1) 0 true ⟨0, 5, 9, fun _ => 0⟩ ⟨0, 0, fun _ => 0⟩
        true).1 = true ∧
    (mcp2515_multi_send (some 1) 0 true ⟨0, 5, 9, fun _ => 0⟩ ⟨0, 0, fun _ => 0⟩
        true).2.isSome = true ∧
    (9 : Nat) > 8 := by
  refine ⟨rfl, rfl, by omega⟩

/-- C6 (amended): for every frame whose dlc exceeds 8, the MCP2515-single and
TWAI backends' send returns failure immediately, with no hardware access at
all (empty driver trace, hence no transmission attempt and no controller
state change); the MCP2515-multi backend's send performs no dlc check and
forwards the converted frame to the driver whenever the adapter is
initialised and the index is valid. -/
theorem c6_send_too_long_amended (msg : can_message_t)
    (cfg : twai_timeouts_config_t) (sendOk txOk sOk : Bool) (st : TwaiState)
    (canintf : Nat) (wire : twai_message_t) (f0 : CAN_FRAME) (driverOk : Bool)
    (hdlc : msg.dlc > 8) :
    mcp2515_single_send msg sendOk canintf = (false, []) ∧
    can_twai_send cfg msg txOk sOk st = (false, []) ∧
    mcp2515_multi_send (some 1) 0 true wire f0 driverOk =
      (driverOk, some (to_frame wire f0)) := by
  refine ⟨?_, ?_, rfl⟩
  · simp [mcp2515_single_send, hdlc]
  · simp [can_twai_send, hdlc]

/-- Witness for C6 (amended) at a dlc-9 frame. -/
theorem c6_send_too_long_amended_witness :
    mcp2515_single_send ⟨0x123, false, false, 9, fun _ => 0⟩ true 0 = (false, []) ∧
    can_twai_send ⟨1, 2, 3, 4⟩ ⟨0x123, false, false, 9, fun _ => 0⟩ true true
      TwaiState.running = (false, []) := by
  have h := c6_send_too_long_amended ⟨0x123, false, false, 9, fun _ => 0⟩
    ⟨1, 2, 3, 4⟩ true true true TwaiState.running 0 ⟨0, 0, 0, fun _ => 0⟩
    ⟨0, 0, fun _ => 0⟩ true (by decide)
  exact ⟨h.1, h.2.1⟩

/-! ## MCP2515 single adapter: receive (mcp2515_single_adapter.c) -/

/-- `EFLG_RX0OVR` from the MCP2515 driver header (RX buffer 0 overrun,
bit 6). -/
def EFLG_RX0OVR : Nat := 0x40

/-- `EFLG_RX1OVR` from the MCP2515 driver header (RX buffer 1 overrun,
bit 7). -/
def EFLG_RX1OVR : Nat := 0x80

/-- Hardware state visible to `mcp2515_single_receive`: the result of
`MCP2515_checkError`, the EFLG register value, and the frames pending in the
controller's receive buffers in read order (`MCP2515_checkReceive` is true
exactly when this list is non-empty, and `MCP2515_readMessageAfterStatCheck`
returns the head). -/
structure McpRxHw where
  errorFlag : Bool
  eflg : Nat
  rxFrames : List CAN_FRAME

/-- Result of one `mcp2515_single_receive` call: the returned Bool, the
caller's buffer after the call, the adapter's `interrupt_pending` flag after
the call, the frames still pending in hardware, and the driver trace. -/
structure McpRxOutcome where
  returned : Bool
  buf : can_message_t
  interrupt_pending : Bool
  rxFrames : List CAN_FRAME
  actions : List McpAction

/-- The drain loop of `mcp2515_single_receive` (`while MCP2515_checkReceive`):
reads and discards every frame still pending. -/
def drainLoop : List CAN_FRAME → List McpAction
  | [] => []
  | _ :: rest => McpAction.readMessage :: drainLoop rest

/-- `mcp2515_single_receive`: returns immediately when neither the interrupt
flag nor `checkReceive` reports data; on an error flag it clears the RX
overrun flags (when an overrun bit is set) or the generic error interrupt
flag, resets `interrupt_pending` and returns false; otherwise it reads one
frame, rejects an invalid dlc, stores the frame into the caller's buffer
(id, dlc and the first dlc data bytes; `extended_id`/`rtr` are untouched),
drains all remaining pending frames, clears `interrupt_pending` and returns
true.  `ip` is the `interrupt_pending` flag at entry. -/
def mcp2515_single_receive (ip : Bool) (hw : McpRxHw) (buf : can_message_t) :
    McpRxOutcome :=
  if !ip && hw.rxFrames.isEmpty then
    ⟨false, buf, ip, hw.rxFrames, []⟩
  else if hw.errorFlag then
    if hw.eflg &&& (EFLG_RX0OVR ||| EFLG_RX1OVR) ≠ 0 then
      ⟨false, buf, false, hw.rxFrames,
       [McpAction.getErrorFlagsCall, McpAction.clearRXnOVR]⟩
    else
      ⟨false, buf, false, hw.rxFrames,
       [McpAction.getErrorFlagsCall, McpAction.clearERRIF]⟩
  else
    match hw.rxFrames with
    | [] => ⟨false, buf, false, [], [McpAction.readMessage, McpAction.clearInterrupts]⟩
    | f :: rest =>
      if f.can_dlc > 8 then
        ⟨false, buf, ip, rest, [McpAction.readMessage]⟩
      else
        ⟨true,
         { id := f.can_id, extended_id := buf.extended_id, rtr := buf.rtr,
           dlc := f.can_dlc,
           data := fun i => if i.val < f.can_dlc then f.data i else buf.data i },
         false, [], McpAction.readMessage :: drainLoop rest⟩

/-- C7: whenever error flags are set at receive time (and data appeared
pending), the receive clears the RX overrun flags when an overrun bit is set
and the generic error interrupt flag otherwise, and returns false — the read
is reported as nothing available, with the caller's buffer untouched. -/
theorem c7_receive_error_flags_cleared (ip : Bool) (hw : McpRxHw)
    (buf : can_message_t) (hpend : ip = true ∨ hw.rxFrames ≠ [])
    (herr : hw.errorFlag = true) :
    (mcp2515_single_receive ip hw buf).returned = false ∧
    (mcp2515_single_receive ip hw buf).buf = buf ∧
    (mcp2515_single_receive ip hw buf).interrupt_pending = false ∧
    (mcp2515_single_receive ip hw buf).actions =
      (if hw.eflg &&& (EFLG_RX0OVR ||| EFLG_RX1OVR) ≠ 0 then
        [McpAction.getErrorFlagsCall, McpAction.clearRXnOVR]
      else
        [McpAction.getErrorFlagsCall, McpAction.clearERRIF]) := by
  have hentry : (!ip && hw.rxFrames.isEmpty) = false := by
    rcases hpend with h | h
    · simp [h]
    · simp [List.isEmpty_iff, h]
  rw [mcp2515_single_receive, hentry]
  by_cases hovr : hw.eflg &&& (EFLG_RX0OVR ||| EFLG_RX1OVR) ≠ 0 <;>
    simp [herr, hovr]

/-- Witness for C7: interrupt pending, error flag set with an RX0 overrun. -/
theorem c7_receive_error_flags_cleared_witness :
    (mcp2515_single_receive true ⟨true, 0x40, []⟩
        ⟨0, false, false, 0, fun _ => 0⟩).returned = false ∧
    (mcp2515_single_receive true ⟨true, 0x40, []⟩
        ⟨0, false, false, 0, fun _ => 0⟩).actions =
      [McpAction.getErrorFlagsCall, McpAction.clearRXnOVR] := by
  have h := c7_receive_error_flags_cleared true ⟨true, 0x40, []⟩
    ⟨0, false, false, 0, fun _ => 0⟩ (Or.inl rfl) rfl
  refine ⟨h.1, ?_⟩
  rw [h.2.2.2]
  simp [EFLG_RX0OVR, EFLG_RX1OVR]

/-- C10: every successful `mcp2515_single_receive` call delivers exactly one
frame — the head of the hardware receive buffers — into the caller's buffer;
before returning it reads and discards every additional pending frame (the
hardware buffers are left empty and the drained frames appear in no output),
and the interrupt-pending flag is cleared. -/
theorem c10_receive_single_delivery (ip : Bool) (hw : McpRxHw)
    (buf : can_message_t) (f : CAN_FRAME) (rest : List CAN_FRAME)
    (herr : hw.errorFlag = false) (hfr : hw.rxFrames = f :: rest)
    (hdlc : f.can_dlc ≤ 8) :
    (mcp2515_single_receive ip hw buf).returned = true ∧
    (mcp2515_single_receive ip hw buf).rxFrames = [] ∧
    (mcp2515_single_receive ip hw buf).interrupt_pending = false ∧
    (mcp2515_single_receive ip hw buf).buf.id = f.can_id ∧
    (mcp2515_single_receive ip hw buf).buf.dlc = f.can_dlc ∧
    (∀ i : Fin 8, i.val < f.can_dlc →
      (mcp2515_single_receive ip hw buf).buf.data i = f.data i) := by
  have hentry : (!ip && hw.rxFrames.isEmpty) = false := by
    simp [hfr]
  rw [mcp2515_single_receive, hentry]
  simp only [herr, Bool.false_eq_true, if_false, hfr]
  rw [if_neg (by omega)]
  refine ⟨rfl, rfl, rfl, rfl, rfl, ?_⟩
  intro i hi
  simp [hi]

/-- Witness for C10: two pending frames; the first (id 0x21, dlc 1) is
delivered, the second is drained and the buffers end empty. -/
theorem c10_receive_single_delivery_witness :
    (mcp2515_single_receive false
        ⟨false, 0, [⟨0x21, 1, fun _ => 5⟩, ⟨0x22, 2, fun _ => 6⟩]⟩
        ⟨0, false, false, 0, fun _ => 0⟩).returned = true ∧
    (mcp2515_single_receive false
        ⟨false, 0, [⟨0x21, 1, fun _ => 5⟩, ⟨0x22, 2, fun _ => 6⟩]⟩
        ⟨0, false, false, 0, fun _ => 0⟩).rxFrames = [] ∧
    (mcp2515_single_receive false
        ⟨false, 0, [⟨0x21, 1, fun _ => 5⟩, ⟨0x22, 2, fun _ => 6⟩]⟩
        ⟨0, false, false, 0, fun _ => 0⟩).buf.id = 0x21 := by
  have h := c10_receive_single_delivery false
    ⟨false, 0, [⟨0x21, 1, fun _ => 5⟩, ⟨0x22, 2, fun _ => 6⟩]⟩
    ⟨0, false, false, 0, fun _ => 0⟩ ⟨0x21, 1, fun _ => 5⟩
    [⟨0x22, 2, fun _ => 6⟩] rfl rfl (by decide)
  exact ⟨h.1, h.2.1, h.2.2.2.1⟩

/-! ## Producer-side bounded queue (examples/single/receive_interrupt_single.c)

The shared receive queue is the FreeRTOS queue created with capacity
`RX_QUEUE_LENGTH`; modelled at the interface boundary as a list with the
documented `xQueueSend` semantics for a zero block time: append when a slot
is free, otherwise return an error immediately without touching the queue. -/

/-- `xQueueSend(q, msg, 0)`: non-blocking enqueue into a queue of capacity
`cap`.  Returns the queue after the call and the success flag. -/
def xQueueSendZero (cap : Nat) (q : List can_message_t) (m : can_message_t) :
    List can_message_t × Bool :=
  if q.length < cap then (q ++ [m], true) else (q, false)

/-- The TWAI branch of `received_to_queue`: when a frame was received it is
enqueued with a zero timeout and the result is discarded; otherwise the
producer just yields. -/
def received_to_queue_twai (cap : Nat) (q : List can_message_t)
    (rx : Option can_message_t) : List can_message_t :=
  match rx with
  | some m => (xQueueSendZero cap q m).1
  | none => q

/-- The MCP2515 branch of `received_to_queue`: drains all currently available
frames (`while (canif_receive(msg))`), enqueueing each with a zero timeout
and discarding the result. -/
def received_to_queue_drain (cap : Nat) :
    List can_message_t → List can_message_t → List can_message_t
  | q, [] => q
  | q, m :: rest => received_to_queue_drain cap (xQueueSendZero cap q m).1 rest

/-- C8: when the shared receive queue is full the producer's enqueue never
blocks and the newest frame is dropped: the zero-timeout enqueue fails and
leaves the queue's contents and order unchanged, its failure is ignored, and
both producer branches leave a full queue exactly as it was. -/
theorem c8_full_queue_drops_newest (cap : Nat) (q : List can_message_t)
    (m : can_message_t) (avail : List can_message_t) (hfull : cap ≤ q.length) :
    xQueueSendZero cap q m = (q, false) ∧
    received_to_queue_twai cap q (some m) = q ∧
    received_to_queue_drain cap q avail = q := by
  have hsend : ∀ x : can_message_t, xQueueSendZero cap q x = (q, false) := by
    intro x
    rw [xQueueSendZero, if_neg (by omega)]
  refine ⟨hsend m, ?_, ?_⟩
  · rw [received_to_queue_twai, hsend m]
  · induction avail with
    | nil => rfl
    | cons a rest ih =>
      rw [received_to_queue_drain, hsend a]
      exact ih

/-- Witness for C8: a queue of capacity 2 holding two frames rejects a third
and is left unchanged by both producer branches. -/
theorem c8_full_queue_drops_newest_witness :
    xQueueSendZero 2
      [⟨1, false, false, 0, fun _ => 0⟩, ⟨2, false, false, 0, fun _ => 0⟩]
      ⟨3, false, false, 0, fun _ => 0⟩ =
      ([⟨1, false, false, 0, fun _ => 0⟩, ⟨2, false, false, 0, fun _ => 0⟩],
       false) ∧
    received_to_queue_drain 2
      [⟨1, false, false, 0, fun _ => 0⟩, ⟨2, false, false, 0, fun _ => 0⟩]
      [⟨3, false, false, 0, fun _ => 0⟩, ⟨4, false, false, 0, fun _ => 0⟩] =
      [⟨1, false, false, 0, fun _ => 0⟩, ⟨2, false, false, 0, fun _ => 0⟩] := by
  have h := c8_full_queue_drops_newest 2
    [⟨1, false, false, 0, fun _ => 0⟩, ⟨2, false, false, 0, fun _ => 0⟩]
    ⟨3, false, false, 0, fun _ => 0⟩
    [⟨3, false, false, 0, fun _ => 0⟩, ⟨4, false, false, 0, fun _ => 0⟩]
    (by simp)
  exact ⟨h.1, h.2.2⟩

/-! ## Deinit across backends (C9)

`mcp2515_multi_deinit` guards on `g_handles == NULL` and returns true
untouched; `can_twai_deinit` and `mcp2515_single_deinit` invoke hardware
teardown unconditionally and propagate the first failure. -/

/-- `mcp2515_multi_deinit`: when `g_handles` is NULL (`none`) it returns true
immediately; otherwise it destroys every handle, frees the array and zeroes
the state.  The state is the optional handle array (each Bool models one
non-null handle slot). -/
def mcp2515_multi_deinit (g_handles : Option (List Bool)) :
    Bool × Option (List Bool) :=
  match g_handles with
  | none => (true, none)
  | some _ => (true, none)

/-- `can_twai_deinit`: stops then uninstalls the TWAI driver, returning false
as soon as one of the two driver calls fails.  `stopOk`/`uninstallOk` are the
results of `twai_stop` and `twai_driver_uninstall`. -/
def can_twai_deinit (stopOk uninstallOk : Bool) : Bool :=
  if !stopOk then false
  else if !uninstallOk then false
  else true

/-- Result of the `twai_stop` driver call, modelled from the documented
ESP-IDF behaviour at the interface boundary: it returns `ESP_OK` only when
the driver is installed and running, and `ESP_ERR_INVALID_STATE` otherwise —
in particular on an already-closed (never-started or uninstalled) backend. -/
def twai_stop_result (driverRunning : Bool) : Bool := driverRunning

/-- Oracle for the external calls made by `mcp2515_single_deinit`. -/
structure McpDeinitHw where
  setConfigMode_ok : Bool
  isrRemove_ok : Bool
  spiRemove_ok : Bool
  busFree_ok : Bool

/-- `mcp2515_single_deinit`: unconditionally requests configuration mode
(failing the call fails deinit), then removes the ISR handler when a bundle
with a valid interrupt GPIO is recorded, removes the SPI device when one is
bound, and frees the SPI bus; the first failing call makes deinit return
false.  `bundleSet`/`intGpioValid`/`spiBound` describe the adapter state at
entry. -/
def mcp2515_single_deinit (bundleSet intGpioValid spiBound : Bool)
    (hw : McpDeinitHw) : Bool :=
  if !hw.setConfigMode_ok then false
  else if bundleSet && intGpioValid && !hw.isrRemove_ok then false
  else if spiBound && !hw.spiRemove_ok then false
  else if !hw.busFree_ok then false
  else true

/-- C9 counterexample: the claim fails on the code for the TWAI backend.  On
an already-closed backend the driver is not running, so `twai_stop` fails and
`can_twai_deinit` returns false instead of succeeding. -/
theorem c9_twai_deinit_not_idempotent_counterexample :
    can_twai_deinit (twai_stop_result false) true = false := rfl

/-- C9 (amended): only the MCP2515-multi backend's deinit is idempotent on an
already-closed backend — with `g_handles` NULL it returns success and leaves
the state unchanged; the TWAI and MCP2515-single deinit operations invoke
hardware teardown unconditionally, so on an uninitialised backend, where the
first teardown call (`twai_stop`, resp. `MCP2515_setConfigMode`) fails, they
return failure. -/
theorem c9_deinit_idempotence_amended (uninstallOk : Bool) (hw : McpDeinitHw)
    (hcfg : hw.setConfigMode_ok = false) :
    mcp2515_multi_deinit none = (true, none) ∧
    can_twai_deinit (twai_stop_result false) uninstallOk = false ∧
    mcp2515_single_deinit false false false hw = false := by
  refine ⟨rfl, rfl, ?_⟩
  simp [mcp2515_single_deinit, hcfg]

/-- Witness for C9 (amended) with every later teardown call reporting
success. -/
theorem c9_deinit_idempotence_amended_witness :
    mcp2515_multi_deinit none = (true, none) ∧
    can_twai_deinit (twai_stop_result false) true = false ∧
    mcp2515_single_deinit false false false ⟨false, true, true, true⟩ = false := by
  exact c9_deinit_idempotence_amended true ⟨false, true, true, true⟩ rfl
